import Mathlib

/-!
Verification of the error-normalization and tracing pipeline of the
RealTimeTranslator base module (`src/exception.py`, `src/logger.py`).

Python values that can flow through JSON serialization and pydantic
validation are embedded as the inductive `JVal`; Python `dict`s are
insertion-ordered association lists with unique keys, and the dict
operations used by the source (`get`, `pop`, item assignment) are the
`alist*` functions below.
-/

namespace RTT

/-- A JSON-like Python value: `dict`, `list`, `str`, `int`, `bool`, `None`.
`json.dumps` / `json.loads` round-trips are the identity at this level. -/
inductive JVal where
  | obj (fields : List (String × JVal))
  | arr (elems : List JVal)
  | str (s : String)
  | num (n : Int)
  | bool (b : Bool)
  | null

/-- A Python `dict[str, Any]` value: insertion-ordered association list. -/
abbrev JDict := List (String × JVal)

/-- `d.get(key)` on a Python dict (first binding wins; keys are unique). -/
def alistGet {α : Type} : List (String × α) → String → Option α
  | [], _ => none
  | (k, v) :: rest, key => if k = key then some v else alistGet rest key

/-- `d[key] = val` on a Python dict: replace in place, else append. -/
def alistSet {α : Type} : List (String × α) → String → α → List (String × α)
  | [], key, val => [(key, val)]
  | (k, v) :: rest, key, val =>
      if k = key then (k, val) :: rest else (k, v) :: alistSet rest key val

/-- The removal part of `d.pop(key, default)` on a Python dict. -/
def alistRemove {α : Type} : List (String × α) → String → List (String × α)
  | [], _ => []
  | (k, v) :: rest, key => if k = key then rest else (k, v) :: alistRemove rest key

/-- Python truthiness of a `JVal` (used by `if redirect:` on a popped value). -/
def truthy : JVal → Bool
  | .obj fields => !fields.isEmpty
  | .arr elems => !elems.isEmpty
  | .str s => !(s = "")
  | .num n => !(n = 0)
  | .bool b => b
  | .null => false

/-- The pydantic model `ResponseException` from `src/exception.py`
(a `ModuleExceptionPayload` plus the excluded `custom` flag).  The constant
field named after the class (always the string `"ModuleException"`) never
influences the pipeline and is omitted. -/
structure ResponseException where
  msg : String
  code : Int := 500
  details : JDict := []
  redirect : Bool := false
  notification : Bool := false
  custom : Bool := true

/-- The members of the `ErrorCode` enum in `src/exception.py`. -/
inductive ErrorCode where
  | BadRequest
  | CouldNotValidateUserCreds
  | UserExpiredSignatureError
  | IncorrUserCreds
  | NotAuthenticated
  | InactiveUser
  | UserRegistrationForbidden
  | UserNotExists
  | UserExists
  | ProjectLocked
  | NameAlreadyExists
  | GTINNotExists
  | GTINAlreadyExists
  | DMCodeNotExists
  | DMCodeAlreadyExists
  | TaskNotFound
  | TaskAlreadyExists
  | SessionNotFound
  | SessionAlreadyExists
  | DeviceDisconnect
  | TooManyRequestsError
  | ValidationError
  | WrongFormat
  | DMCodeValidationError
  | GTINValidationError
  | DMCodeAddingError
  | GTINAddingError
  | Unauthorized
  | AuthorizeError
  | ForbiddenError
  | NotFoundError
  | ResponseProcessingError
  | YookassaApiError
  | InternalError
  | CoreOffline
  | CoreFileUploadingError
  | DbError
deriving DecidableEq

/-- The descriptor (`.value`) initially attached to each `ErrorCode` member. -/
def ErrorCode.value : ErrorCode → ResponseException
  | .BadRequest => { msg := "Bad Request", code := 4000 }
  | .CouldNotValidateUserCreds => { msg := "Could not validate credentials: ValidationError", code := 4021 }
  | .UserExpiredSignatureError => { msg := "Could not validate credentials: ExpiredSignatureError", code := 4022 }
  | .IncorrUserCreds => { msg := "Incorrect login or password", code := 4023 }
  | .NotAuthenticated => { msg := "Not authenticated", code := 4030 }
  | .InactiveUser => { msg := "Inactive user", code := 4032 }
  | .UserRegistrationForbidden => { msg := "Open user registration is forbidden on this server", code := 4033 }
  | .UserNotExists => { msg := "The user with this username does not exist in the system", code := 4035 }
  | .UserExists => { msg := "The user already exists in the system", code := 4036 }
  | .ProjectLocked => { msg := "Project locked", code := 4041 }
  | .NameAlreadyExists => { msg := "This name already exists", code := 4044 }
  | .GTINNotExists => { msg := "GTIN not found", code := 4045 }
  | .GTINAlreadyExists => { msg := "GTIN already exists", code := 4046 }
  | .DMCodeNotExists => { msg := "DataMatrix code not found", code := 4045 }
  | .DMCodeAlreadyExists => { msg := "DataMatrix code already exists", code := 4046 }
  | .TaskNotFound => { msg := "Task not found", code := 4061 }
  | .TaskAlreadyExists => { msg := "Task already exists", code := 4062 }
  | .SessionNotFound => { msg := "Session not found", code := 4071 }
  | .SessionAlreadyExists => { msg := "Session already exists", code := 4072 }
  | .DeviceDisconnect => { msg := "Some of devices disconnected", code := 4073 }
  | .TooManyRequestsError => { msg := "Too Many Requests", code := 4301 }
  | .ValidationError => { msg := "Validation error", code := 4400 }
  | .WrongFormat => { msg := "Wrong format", code := 4411 }
  | .DMCodeValidationError => { msg := "DMCode validation error", code := 4412 }
  | .GTINValidationError => { msg := "GTIN validation error", code := 4413 }
  | .DMCodeAddingError => { msg := "DMCode adding error", code := 4414 }
  | .GTINAddingError => { msg := "GTIN adding error", code := 4415 }
  | .Unauthorized => { msg := "Sorry, you are not allowed to access this service: UnauthorizedRequest", code := 4501 }
  | .AuthorizeError => { msg := "Authorization error", code := 4502 }
  | .ForbiddenError => { msg := "Forbidden", code := 4503 }
  | .NotFoundError => { msg := "Not Found", code := 4504 }
  | .ResponseProcessingError => { msg := "Response Processing Error", code := 4505 }
  | .YookassaApiError => { msg := "Yookassa Api Error", code := 4511 }
  | .InternalError => { msg := "Internal Server Error", code := 5000 }
  | .CoreOffline => { msg := "Core is offline", code := 5021 }
  | .CoreFileUploadingError => { msg := "Core file uploading error", code := 5022 }
  | .DbError => { msg := "Bad Gateway", code := 5041 }

/-- The single entry of the `HTTP_2_CUSTOM_ERR` fallback table. -/
def http422Descriptor : ResponseException :=
  { msg := "Validation error", code := 422, custom := false }

/-- `HTTP_2_CUSTOM_ERR`: standard status codes remapped to custom descriptors. -/
def HTTP_2_CUSTOM_ERR : List (Int × ResponseException) :=
  [(422, http422Descriptor)]

/-- Lookup in the `HTTP_2_CUSTOM_ERR` dict (`code in HTTP_2_CUSTOM_ERR` /
`HTTP_2_CUSTOM_ERR[code]`). -/
def http2customGet : List (Int × ResponseException) → Int → Option ResponseException
  | [], _ => none
  | (k, v) :: rest, key => if k = key then some v else http2customGet rest key

/-- Pydantic validation of a `str` field (lax mode accepts exactly `str`). -/
def fieldStr (d : JDict) (k : String) (dflt : Option String) : Except String String :=
  match alistGet d k with
  | none =>
      match dflt with
      | some v => Except.ok v
      | none => Except.error ("ValidationError: field required: " ++ k)
  | some (JVal.str s) => Except.ok s
  | some _ => Except.error ("ValidationError: str type expected: " ++ k)

/-- Pydantic validation of an `int` field (lax mode also coerces numeric
strings). -/
def fieldInt (d : JDict) (k : String) (dflt : Int) : Except String Int :=
  match alistGet d k with
  | none => Except.ok dflt
  | some (JVal.num n) => Except.ok n
  | some (JVal.str s) =>
      match s.toInt? with
      | some n => Except.ok n
      | none => Except.error ("ValidationError: int type expected: " ++ k)
  | some _ => Except.error ("ValidationError: int type expected: " ++ k)

/-- Pydantic validation of a `bool` field. -/
def fieldBool (d : JDict) (k : String) (dflt : Bool) : Except String Bool :=
  match alistGet d k with
  | none => Except.ok dflt
  | some (JVal.bool b) => Except.ok b
  | some _ => Except.error ("ValidationError: bool type expected: " ++ k)

/-- Pydantic validation of a `dict[str, Any]` field. -/
def fieldDict (d : JDict) (k : String) : Except String JDict :=
  match alistGet d k with
  | none => Except.ok []
  | some (JVal.obj fields) => Except.ok fields
  | some _ => Except.error ("ValidationError: dict type expected: " ++ k)

/-- `ResponseException(**error_dict)`: pydantic construction from a keyword
dict.  `msg` is required; the other fields default; unknown keys are ignored;
a missing `custom` key defaults to `True`.  Any field failure raises. -/
def mkResponseException (d : JDict) : Except String ResponseException := do
  let msg ← fieldStr d "msg" none
  let code ← fieldInt d "code" 500
  let details ← fieldDict d "details"
  let redirect ← fieldBool d "redirect" false
  let notification ← fieldBool d "notification" false
  let custom ← fieldBool d "custom" true
  Except.ok { msg := msg, code := code, details := details,
              redirect := redirect, notification := notification, custom := custom }

/-- `payload.model_dump_json()` followed by `json.loads`, at the `JVal`
level: the serialized fields of the payload.  The `custom` field is declared
with `exclude=True` and is absent from the dump. -/
def model_dump_json (p : ResponseException) : JDict :=
  [("msg", JVal.str p.msg), ("code", JVal.num p.code), ("details", JVal.obj p.details),
   ("redirect", JVal.bool p.redirect), ("notification", JVal.bool p.notification)]

/-- The result of constructing `EXC(...)`: an `HTTPException` whose
`status_code` is fixed and whose `detail` is the JSON-serialized payload
(held here already parsed back to a dict, since `json.dumps`/`json.loads`
round-trips are the identity on `JVal`). -/
structure EXCResult where
  status_code : Nat
  detail : JDict

/-- The `EXC` constructor from `src/exception.py`: copy the descriptor with
updated `details` (and `redirect`/`notification` only when the flags are
set), then build an `HTTPException` with `status_code=400` and the dumped
payload as `detail`. -/
def EXC (exc : ErrorCode) (details : Option JDict) (redirect : Bool)
    (notification : Bool) : EXCResult :=
  let error_response : ResponseException :=
    { exc.value with
      details := details.getD []
      redirect := if redirect then true else exc.value.redirect
      notification := if notification then true else exc.value.notification }
  { status_code := 400, detail := model_dump_json error_response }

/-- The `detail` argument of a caught `HTTPException`, together with the
outcome of `json.loads` on it when it is a string: `strNonJson s` is a
string on which `json.loads` raises `JSONDecodeError`, `strJson v` is a
string that parses to the JSON value `v`, and `dict d` is a dict detail. -/
inductive Detail where
  | strNonJson (s : String)
  | strJson (v : JVal)
  | dict (d : JDict)

/-- `parse_error_detail` from `src/exception.py`.  A non-JSON string falls
back to `{'msg': detail, 'code': 5000, 'custom': False}`; a parsed JSON
value that is not an object makes `ResponseException(**error_dict)` raise a
`TypeError`; everything else goes through pydantic construction. -/
def parse_error_detail : Detail → Except String ResponseException
  | .strNonJson s =>
      mkResponseException
        [("msg", JVal.str s), ("code", JVal.num 5000), ("custom", JVal.bool false)]
  | .strJson (JVal.obj fields) => mkResponseException fields
  | .strJson _ => Except.error "TypeError: argument after ** must be a mapping"
  | .dict d => mkResponseException d

/-- The `JSONResponse` produced by `create_error_response`: status plus the
`response_data` body.  The `redirect`/`notification` keys are present in the
body only when truthy, encoded here as `Option JVal` (`none` = key absent). -/
structure ErrorResponse where
  status : Nat
  msg : String
  code : Int
  details : JDict
  redirect : Option JVal
  notification : Option JVal

/-- The effective (`inner_code`) band selection of `create_error_response`:
a custom payload keeps its code, a non-custom one is remapped through
`HTTP_2_CUSTOM_ERR` or collapses to `5999`. -/
def inner_code (resp_exc : ResponseException) : Int :=
  if resp_exc.custom then resp_exc.code
  else
    match http2customGet HTTP_2_CUSTOM_ERR resp_exc.code with
    | some custom_error => custom_error.code
    | none => 5999

/-- The message `create_error_response` places in the body: the payload's
own `msg`, except that the `HTTP_2_CUSTOM_ERR` branch assigns the table
descriptor's `msg` to the payload before building the body. -/
def response_msg (resp_exc : ResponseException) : String :=
  if resp_exc.custom then resp_exc.msg
  else
    match http2customGet HTTP_2_CUSTOM_ERR resp_exc.code with
    | some custom_error => custom_error.msg
    | none => resp_exc.msg

/-- The test `details.get('reason') is None` (true when the key is absent or
bound to `None`). -/
def reasonIsNone (d : JDict) : Bool :=
  match alistGet d "reason" with
  | none => true
  | some JVal.null => true
  | some _ => false

/-- `create_error_response` from `src/exception.py`: pop `redirect` /
`notification` out of `details` (falling back to the payload flags), strip a
`reason` key bound to `None`, pick the effective code and message, derive
the status from the 4000-band test, and build the body. -/
def create_error_response (resp_exc : ResponseException) : ErrorResponse :=
  let details0 := resp_exc.details
  let redirect := (alistGet details0 "redirect").getD (JVal.bool resp_exc.redirect)
  let details1 := alistRemove details0 "redirect"
  let notification := (alistGet details1 "notification").getD (JVal.bool resp_exc.notification)
  let details2 := alistRemove details1 "notification"
  let details3 := if reasonIsNone details2 then alistRemove details2 "reason" else details2
  let status_code : Nat := if 4000 ≤ inner_code resp_exc ∧ inner_code resp_exc < 5000 then 400 else 500
  { status := status_code
    msg := response_msg resp_exc
    code := inner_code resp_exc
    details := details3
    redirect := if truthy redirect then some redirect else none
    notification := if truthy notification then some notification else none }

/-- The `http_exception_handler` (and the identical
`custom_http_exception_handler`) registered by `exception_handler`: parse
the detail, attach `details['endpoint'] = request.url.path`, and build the
response.  A failure in `parse_error_detail` propagates (there is no
fallback around it). -/
def http_exception_handler (path : String) (detail : Detail) :
    Except String ErrorResponse :=
  match parse_error_detail detail with
  | Except.error e => Except.error e
  | Except.ok err =>
      Except.ok (create_error_response
        { err with details := alistSet err.details "endpoint" (JVal.str path) })

/-- The per-member mutable state of the `ErrorCode` enum: each member holds
one shared `ResponseException` object whose attributes can be reassigned. -/
abbrev Registry := ErrorCode → ResponseException

/-- The `validation_exception_handler` registered by `exception_handler`:
it takes `ErrorCode.ValidationError.value` — the shared descriptor object —
and reassigns its `details` attribute in place before building the
response, so it returns the updated registry alongside the response. -/
def validation_exception_handler (reg : Registry) (path : String)
    (errors : List JVal) : Registry × ErrorResponse :=
  let error := reg ErrorCode.ValidationError
  let error2 :=
    { error with details := [("endpoint", JVal.str path), ("errors", JVal.arr errors)] }
  (fun c => if c = ErrorCode.ValidationError then error2 else reg c,
   create_error_response error2)

/-- Handling at the request boundary of an exception raised via `EXC`: the
`HTTPException` carries the dumped payload as a JSON string `detail`, which
`json.loads` parses back to the dumped object. -/
def handleEXC (path : String) (e : EXCResult) : Except String ErrorResponse :=
  http_exception_handler path (Detail.strJson (JVal.obj e.detail))

/-- An inbound request as seen by `LoggingMiddleware.dispatch`. -/
structure Request where
  headers : List (String × String)
  path : String

/-- The response object whose `headers` mapping the middleware mutates. -/
structure Response where
  status : Nat
  headers : List (String × String)

/-- `LoggingMiddleware.dispatch` from `src/logger.py`.  The two `uuid4()`
draws are supplied as `freshRequestId` / `freshTraceId`; `call_next` either
returns the downstream response (including error responses produced by the
exception handlers, which run below this middleware) or re-raises an
exception that no registered handler converted.  The two `ContextVar.set`
calls placed before `call_next` affect only the logging context and carry no
data into the returned value.  The headers are assigned only on the
successful return path. -/
def dispatch {ε : Type} (freshRequestId freshTraceId : String) (request : Request)
    (call_next : Request → Except ε Response) : Except ε Response :=
  let request_id := freshRequestId
  let trace_id := (alistGet request.headers "X-Trace-ID").getD freshTraceId
  match call_next request with
  | Except.error e => Except.error e
  | Except.ok response =>
      Except.ok { response with
        headers := alistSet (alistSet response.headers "X-Request-ID" request_id)
          "X-Trace-ID" trace_id }

/-- Projection helpers over handler results. -/
def respStatus : Except String ErrorResponse → Option Nat
  | Except.ok r => some r.status
  | Except.error _ => none

def respMsg : Except String ErrorResponse → Option String
  | Except.ok r => some r.msg
  | Except.error _ => none

def respCode : Except String ErrorResponse → Option Int
  | Except.ok r => some r.code
  | Except.error _ => none

def respDetails : Except String ErrorResponse → Option JDict
  | Except.ok r => some r.details
  | Except.error _ => none

def exceptRaised {α : Type} : Except String α → Bool
  | Except.ok _ => false
  | Except.error _ => true

/-! ### Association-list (Python dict) lemmas -/

theorem alistGet_append {α : Type} (d1 d2 : List (String × α)) (k : String) :
    alistGet (d1 ++ d2) k =
      match alistGet d1 k with
      | some v => some v
      | none => alistGet d2 k := by
  induction d1 with
  | nil => simp [alistGet]
  | cons hd tl ih =>
      obtain ⟨k1, v1⟩ := hd
      by_cases h : k1 = k <;> simp [alistGet, h, ih]

theorem alistRemove_of_get_none {α : Type} {d : List (String × α)} {k : String}
    (h : alistGet d k = none) : alistRemove d k = d := by
  induction d with
  | nil => rfl
  | cons hd tl ih =>
      obtain ⟨k1, v1⟩ := hd
      by_cases hk : k1 = k
      · simp [alistGet, hk] at h
      · simp only [alistGet, hk, if_false, ite_false] at h
        simp [alistRemove, hk, ih h]

theorem alistSet_of_get_none {α : Type} {d : List (String × α)} {k : String}
    (h : alistGet d k = none) (v : α) : alistSet d k v = d ++ [(k, v)] := by
  induction d with
  | nil => rfl
  | cons hd tl ih =>
      obtain ⟨k1, v1⟩ := hd
      by_cases hk : k1 = k
      · simp [alistGet, hk] at h
      · simp only [alistGet, hk, if_false, ite_false] at h
        simp [alistSet, hk, ih h]

theorem alistGet_set_same {α : Type} (d : List (String × α)) (k : String) (v : α) :
    alistGet (alistSet d k v) k = some v := by
  induction d with
  | nil => simp [alistSet, alistGet]
  | cons hd tl ih =>
      obtain ⟨k1, v1⟩ := hd
      by_cases hk : k1 = k <;> simp [alistSet, alistGet, hk, ih]

theorem alistGet_set_ne {α : Type} (d : List (String × α)) {k1 k2 : String}
    (h : k1 ≠ k2) (v : α) : alistGet (alistSet d k1 v) k2 = alistGet d k2 := by
  induction d with
  | nil => simp [alistSet, alistGet, h]
  | cons hd tl ih =>
      obtain ⟨ka, va⟩ := hd
      by_cases hk : ka = k1
      · subst hk
        simp [alistSet, alistGet, h]
      · by_cases hk2 : ka = k2 <;> simp [alistSet, alistGet, hk, hk2, Ne.symm h, ih]

/-- Pydantic round trip: reconstructing a `ResponseException` from its own
dump restores every field, with the excluded `custom` flag reset to its
default `True`. -/
theorem parse_dump_roundtrip (p : ResponseException) :
    parse_error_detail (Detail.strJson (JVal.obj (model_dump_json p))) =
      Except.ok { p with custom := true } := rfl

/-- `create_error_response` on a custom payload whose `details` carries none
of the keys the function rewrites (`redirect`, `notification`, a
`None`-valued `reason`): everything passes through and the status comes from
the payload's own code band. -/
theorem create_error_response_custom (p : ResponseException) (hc : p.custom = true)
    (h1 : alistGet p.details "redirect" = none)
    (h2 : alistGet p.details "notification" = none)
    (h3 : alistGet p.details "reason" ≠ some JVal.null) :
    create_error_response p =
      { status := if 4000 ≤ p.code ∧ p.code < 5000 then 400 else 500
        msg := p.msg
        code := p.code
        details := p.details
        redirect := if p.redirect then some (JVal.bool p.redirect) else none
        notification := if p.notification then some (JVal.bool p.notification) else none } := by
  have hrem1 : alistRemove p.details "redirect" = p.details := alistRemove_of_get_none h1
  simp only [create_error_response, inner_code, response_msg, hc, if_true, h1, hrem1,
    h2, alistRemove_of_get_none h2, Option.getD_none, truthy]
  cases hr : alistGet p.details "reason" with
  | none =>
      simp [reasonIsNone, hr, alistRemove_of_get_none hr]
  | some v =>
      cases v with
      | null => exact absurd hr h3
      | obj fields => simp [reasonIsNone, hr]
      | arr elems => simp [reasonIsNone, hr]
      | str s => simp [reasonIsNone, hr]
      | num n => simp [reasonIsNone, hr]
      | bool b => simp [reasonIsNone, hr]

/-! ### Claim theorems -/

/-- C1: for every `ResponseException` surfaced through
`create_error_response`, the HTTP status of the produced response is 400
exactly when the payload's effective code (`inner_code`) lies in
`[4000, 5000)` and 500 otherwise, and it is always one of exactly 400
and 500. -/
theorem c1_status_band (r : ResponseException) :
    ((create_error_response r).status =
      if 4000 ≤ inner_code r ∧ inner_code r < 5000 then 400 else 500) ∧
    ((create_error_response r).status = 400 ∨ (create_error_response r).status = 500) := by
  refine ⟨rfl, ?_⟩
  by_cases h : 4000 ≤ inner_code r ∧ inner_code r < 5000
  · exact Or.inl (by simp [create_error_response, h])
  · exact Or.inr (by simp [create_error_response, h])

/-- C2 counterexample: normalization is not total.  A dict detail without a
`msg` key (the empty dict) makes `ResponseException(**error_dict)` raise a
pydantic validation error, which propagates out of the handler — there is
no fallback to the generic code-5999 payload. -/
theorem c2_counterexample :
    parse_error_detail (Detail.dict []) =
      Except.error "ValidationError: field required: msg" ∧
    exceptRaised (http_exception_handler "/p" (Detail.dict [])) = true :=
  ⟨rfl, rfl⟩

/-- C2 amended: normalization is total on string details that are not valid
JSON — they fall back to a non-custom payload with `msg` the original
string and code 5000, which the response builder surfaces as code 5999 with
status 500 — but it raises (with no fallback) on details such as a dict
lacking a valid `msg` string or a JSON string not encoding an object. -/
theorem c2_amended (s path : String) :
    parse_error_detail (Detail.strNonJson s) =
      Except.ok { msg := s, code := 5000, custom := false } ∧
    respCode (http_exception_handler path (Detail.strNonJson s)) = some 5999 ∧
    respStatus (http_exception_handler path (Detail.strNonJson s)) = some 500 :=
  ⟨rfl, rfl, rfl⟩

/-- C3 counterexample: an unknown-shape (non-JSON string) detail does yield
code 5999 and status 500, but the original exception's message is placed
verbatim in the `msg` field of the client-facing body — it is leaked, not
discarded. -/
theorem c3_counterexample :
    http_exception_handler "/p" (Detail.strNonJson "secret internal failure") =
      Except.ok { status := 500, msg := "secret internal failure", code := 5999,
                  details := [("endpoint", JVal.str "/p")],
                  redirect := none, notification := none } ∧
    respMsg (http_exception_handler "/p" (Detail.strNonJson "secret internal failure")) =
      some "secret internal failure" :=
  ⟨rfl, rfl⟩

/-- C3 amended: normalizing an exception whose detail matches no known
shape (a non-JSON string) yields the generic internal-error code 5999 with
HTTP status 500, but the body's `msg` field equals the original exception's
detail string, so the original message does appear in the client-facing
response. -/
theorem c3_amended (s path : String) :
    http_exception_handler path (Detail.strNonJson s) =
      Except.ok { status := 500, msg := s, code := 5999,
                  details := [("endpoint", JVal.str path)],
                  redirect := none, notification := none } := rfl

/-- C5 counterexample: a custom payload raised via `EXC` with
`details = {'reason': None}` loses its `reason` key when normalized — the
resulting body's details are not the original details plus `endpoint`. -/
theorem c5_counterexample :
    handleEXC "/p" (EXC ErrorCode.BadRequest (some [("reason", JVal.null)]) false false) =
      Except.ok { status := 400, msg := "Bad Request", code := 4000,
                  details := [("endpoint", JVal.str "/p")],
                  redirect := none, notification := none } ∧
    ([("endpoint", JVal.str "/p")] : JDict) ≠
      [("reason", JVal.null), ("endpoint", JVal.str "/p")] :=
  ⟨rfl, by simp⟩

/-- C5 amended: a custom payload raised via `EXC` passes through
normalization with `msg` and `code` intact and `details` changed only by
appending the `endpoint` key, provided its details carry none of the keys
the pipeline rewrites: `redirect` and `notification` (popped out of details
into top-level flags), a `reason` key bound to `None` (stripped), or an
existing `endpoint` key (overwritten). -/
theorem c5_amended (c : ErrorCode) (d : JDict) (rd nt : Bool) (path : String)
    (h1 : alistGet d "redirect" = none) (h2 : alistGet d "notification" = none)
    (h3 : alistGet d "endpoint" = none) (h4 : alistGet d "reason" ≠ some JVal.null) :
    respMsg (handleEXC path (EXC c (some d) rd nt)) = some c.value.msg ∧
    respCode (handleEXC path (EXC c (some d) rd nt)) = some c.value.code ∧
    respDetails (handleEXC path (EXC c (some d) rd nt)) =
      some (d ++ [("endpoint", JVal.str path)]) := by
  have hset : alistSet d "endpoint" (JVal.str path) = d ++ [("endpoint", JVal.str path)] :=
    alistSet_of_get_none h3 _
  have hg1 : alistGet (d ++ [("endpoint", JVal.str path)]) "redirect" = none := by
    rw [alistGet_append, h1]; rfl
  have hg2 : alistGet (d ++ [("endpoint", JVal.str path)]) "notification" = none := by
    rw [alistGet_append, h2]; rfl
  have hg3 : alistGet (d ++ [("endpoint", JVal.str path)]) "reason" ≠ some JVal.null := by
    rw [alistGet_append]
    cases hr : alistGet d "reason" with
    | none => simp [alistGet]
    | some v => simpa [hr] using h4
  have hdet3 : (if reasonIsNone (d ++ [("endpoint", JVal.str path)]) then
      alistRemove (d ++ [("endpoint", JVal.str path)]) "reason"
      else d ++ [("endpoint", JVal.str path)]) = d ++ [("endpoint", JVal.str path)] := by
    cases hr : alistGet (d ++ [("endpoint", JVal.str path)]) "reason" with
    | none => simp [reasonIsNone, hr, alistRemove_of_get_none hr]
    | some v =>
        cases v with
        | null => exact absurd hr hg3
        | obj fields => simp [reasonIsNone, hr]
        | arr elems => simp [reasonIsNone, hr]
        | str s => simp [reasonIsNone, hr]
        | num n => simp [reasonIsNone, hr]
        | bool b => simp [reasonIsNone, hr]
  refine ⟨?_, ?_, ?_⟩ <;>
    simp [handleEXC, EXC, http_exception_handler, parse_dump_roundtrip, hset,
      respMsg, respCode, respDetails, create_error_response, inner_code, response_msg,
      hg1, hg2, alistRemove_of_get_none hg1, alistRemove_of_get_none hg2, hdet3]

/-- Witness for C5 amended: the spec's own example — `NotFoundError`
(code 4504) raised for path `/users/42` with empty extra details — passes
through with its message and code and gains only the `endpoint` key. -/
theorem c5_amended_witness :
    respMsg (handleEXC "/users/42" (EXC ErrorCode.NotFoundError (some []) false false)) =
      some "Not Found" ∧
    respCode (handleEXC "/users/42" (EXC ErrorCode.NotFoundError (some []) false false)) =
      some 4504 ∧
    respDetails (handleEXC "/users/42" (EXC ErrorCode.NotFoundError (some []) false false)) =
      some [("endpoint", JVal.str "/users/42")] := by
  have h := c5_amended ErrorCode.NotFoundError [] false false "/users/42" rfl rfl rfl
    (by simp [alistGet])
  simpa [ErrorCode.value] using h

/-- C6: for every request validation failure, the produced response has
body code 4400, HTTP status 400, and details exactly
`{endpoint: request path, errors: the field-level error list}`, so a
failure with `n` field errors yields an `errors` entry of length `n`.
Stated over any registry state whose `ValidationError` descriptor still has
its registered code and custom flag (the pipeline never changes those). -/
theorem c6_validation_response (reg : Registry) (path : String) (errors : List JVal)
    (hcode : (reg ErrorCode.ValidationError).code = 4400)
    (hcustom : (reg ErrorCode.ValidationError).custom = true) :
    (validation_exception_handler reg path errors).2.code = 4400 ∧
    (validation_exception_handler reg path errors).2.status = 400 ∧
    (validation_exception_handler reg path errors).2.details =
      [("endpoint", JVal.str path), ("errors", JVal.arr errors)] ∧
    alistGet (validation_exception_handler reg path errors).2.details "errors" =
      some (JVal.arr errors) := by
  refine ⟨?_, ?_, ?_, ?_⟩ <;>
    simp [validation_exception_handler, create_error_response, inner_code, response_msg,
      reasonIsNone, alistGet, alistRemove, hcode, hcustom]

/-- Witness for C6: a validation failure with two field errors on path
`/x`, against the initial registry, yields code 4400, status 400, and an
`errors` list of length 2. -/
theorem c6_witness :
    (validation_exception_handler ErrorCode.value "/x" [JVal.null, JVal.null]).2.code = 4400 ∧
    (validation_exception_handler ErrorCode.value "/x" [JVal.null, JVal.null]).2.status = 400 ∧
    (validation_exception_handler ErrorCode.value "/x" [JVal.null, JVal.null]).2.details =
      [("endpoint", JVal.str "/x"), ("errors", JVal.arr [JVal.null, JVal.null])] ∧
    alistGet (validation_exception_handler ErrorCode.value "/x" [JVal.null, JVal.null]).2.details
      "errors" = some (JVal.arr [JVal.null, JVal.null]) :=
  c6_validation_response ErrorCode.value "/x" [JVal.null, JVal.null] rfl rfl

/-- C7 counterexample: when an exception that no registered handler
converted escapes `call_next`, `dispatch` re-raises it instead of
returning a response — no response exists and neither `X-Request-ID` nor
`X-Trace-ID` is attached, so the headers are not set on every request. -/
theorem c7_counterexample :
    dispatch "fresh-request-id" "fresh-trace-id"
      { headers := [("X-Trace-ID", "t0")], path := "/p" }
      (fun _ => (Except.error "ValueError: boom" : Except String Response)) =
    Except.error "ValueError: boom" := rfl

/-- C7 amended: on every request for which the downstream call returns a
response — successes, and exceptions already converted to error responses
by the exception handlers registered below this middleware — `dispatch`
sets `X-Request-ID` to the freshly generated request id and `X-Trace-ID`
to the inbound `X-Trace-ID` header when present, else to a freshly
generated id; an exception with no registered handler is re-raised with no
headers attached. -/
theorem c7_amended {ε : Type} (rid tid : String) (req : Request)
    (call_next : Request → Except ε Response) (resp : Response)
    (h : call_next req = Except.ok resp) :
    ∃ r2, dispatch rid tid req call_next = Except.ok r2 ∧
      alistGet r2.headers "X-Request-ID" = some rid ∧
      alistGet r2.headers "X-Trace-ID" =
        some ((alistGet req.headers "X-Trace-ID").getD tid) ∧
      r2.status = resp.status := by
  have hne : ("X-Trace-ID" : String) ≠ "X-Request-ID" := by decide
  refine ⟨{ resp with headers := (alistSet (alistSet resp.headers "X-Request-ID" rid) "X-Trace-ID" ((alistGet req.headers "X-Trace-ID").getD tid)) }, ?_, ?_, ?_, rfl⟩
  · simp [dispatch, h]
  · show alistGet (alistSet (alistSet resp.headers "X-Request-ID" rid) "X-Trace-ID"
      ((alistGet req.headers "X-Trace-ID").getD tid)) "X-Request-ID" = some rid
    rw [alistGet_set_ne _ hne _, alistGet_set_same]
  · show alistGet (alistSet (alistSet resp.headers "X-Request-ID" rid) "X-Trace-ID"
      ((alistGet req.headers "X-Trace-ID").getD tid)) "X-Trace-ID" =
      some ((alistGet req.headers "X-Trace-ID").getD tid)
    rw [alistGet_set_same]

/-- Witness for C7 amended: a concrete request carrying inbound
`X-Trace-ID: t0` whose downstream returns a plain 200 response ends up
with `X-Request-ID` the fresh id and `X-Trace-ID` equal to `t0`. -/
theorem c7_amended_witness :
    ∃ r2, dispatch "rid-1" "tid-fresh" { headers := [("X-Trace-ID", "t0")], path := "/p" }
        (fun _ => (Except.ok { status := 200, headers := [] } : Except String Response)) =
        Except.ok r2 ∧
      alistGet r2.headers "X-Request-ID" = some "rid-1" ∧
      alistGet r2.headers "X-Trace-ID" = some "t0" ∧
      r2.status = 200 := by
  have h := c7_amended "rid-1" "tid-fresh" { headers := [("X-Trace-ID", "t0")], path := "/p" }
    (fun _ => (Except.ok { status := 200, headers := [] } : Except String Response))
    { status := 200, headers := [] } rfl
  simpa [alistGet] using h

/-- C8: a non-custom payload whose code is the standard status 422 — the
one entry of the `HTTP_2_CUSTOM_ERR` fallback table — is remapped to the
table's descriptor: the body's `msg` is that descriptor's message
(`"Validation error"`) and the body's `code` is that descriptor's code. -/
theorem c8_remap (r : ResponseException) (hc : r.custom = false) (h422 : r.code = 422) :
    (create_error_response r).msg = http422Descriptor.msg ∧
    (create_error_response r).code = http422Descriptor.code := by
  constructor <;>
    simp [create_error_response, response_msg, inner_code, hc, h422,
      http2customGet, HTTP_2_CUSTOM_ERR]

/-- Witness for C8: a concrete non-custom payload with code 422 produces a
body carrying the table descriptor's message and code. -/
theorem c8_witness :
    (create_error_response { msg := "Unprocessable Entity", code := 422, custom := false }).msg =
      http422Descriptor.msg ∧
    (create_error_response { msg := "Unprocessable Entity", code := 422, custom := false }).code =
      http422Descriptor.code :=
  c8_remap { msg := "Unprocessable Entity", code := 422, custom := false } rfl rfl

/-- C9 counterexample: handling one validation failure mutates the shared
registered `ValidationError` descriptor in place — afterwards its `details`
are no longer the registered (empty) details but carry that request's
endpoint and error list. -/
theorem c9_counterexample :
    ((validation_exception_handler ErrorCode.value "/p" []).1 ErrorCode.ValidationError).details ≠
      (ErrorCode.value ErrorCode.ValidationError).details := by
  simp [validation_exception_handler, ErrorCode.value]

/-- C9 amended: the pipeline never changes any registered descriptor's
`msg` or `code`, and the `HTTPException` handlers work on freshly parsed
payloads; but `validation_exception_handler` reassigns the `details`
attribute of the shared `ValidationError` descriptor in place, leaving it
holding the handled request's endpoint and errors.  Every other descriptor
is untouched. -/
theorem c9_amended (reg : Registry) (path : String) (errors : List JVal) :
    (∀ c, ((validation_exception_handler reg path errors).1 c).msg = (reg c).msg) ∧
    (∀ c, ((validation_exception_handler reg path errors).1 c).code = (reg c).code) ∧
    ((validation_exception_handler reg path errors).1 ErrorCode.ValidationError).details =
      [("endpoint", JVal.str path), ("errors", JVal.arr errors)] ∧
    (∀ c, c = ErrorCode.ValidationError ∨
      (validation_exception_handler reg path errors).1 c = reg c) := by
  refine ⟨?_, ?_, ?_, ?_⟩
  · intro c
    by_cases hc : c = ErrorCode.ValidationError <;> simp [validation_exception_handler, hc]
  · intro c
    by_cases hc : c = ErrorCode.ValidationError <;> simp [validation_exception_handler, hc]
  · simp [validation_exception_handler]
  · intro c
    by_cases hc : c = ErrorCode.ValidationError
    · exact Or.inl hc
    · exact Or.inr (by simp [validation_exception_handler, hc])

/-- C10: the `EXC` constructor always builds its underlying `HTTPException`
with `status_code` 400, for every descriptor — including the server-band
`InternalError` (code 5000); the client-visible status is fixed only later
by the installed handler from the payload code, as the 500 produced for
`InternalError` by the full pipeline shows. -/
theorem c10_exc_status (exc : ErrorCode) (details : Option JDict) (rd nt : Bool) :
    (EXC exc details rd nt).status_code = 400 ∧
    (ErrorCode.value ErrorCode.InternalError).code = 5000 ∧
    respStatus (handleEXC "/p" (EXC ErrorCode.InternalError none false false)) = some 500 :=
  ⟨rfl, rfl, rfl⟩

end RTT
